import Mathlib

/-!
Verification development for the pokemonmarketdata repository.

Shallow embedding of the core logic of `populate_db.py` (the snapshot
extractor `parse_tcgplayer`, the persistence helpers `ensure_product` and
`insert_snapshot`, and the orchestration loop in `main`) together with the
SQLite schema declared in `create_db.py`.

Modelling conventions:
- Markup is modelled after BeautifulSoup parsing: the `Markup` structure holds
  exactly the texts and elements the Python code queries (selector results,
  JSON-LD payloads after `json.loads`, row label/value texts, candidate price
  texts, body text).  BeautifulSoup itself never raises on malformed input, so
  every HTML document corresponds to some `Markup` value.
- Python `float(...)` is modelled by `pyFloat?` over rationals with the common
  literal grammar (sign, digits, optional fraction, optional exponent);
  `int(...)` by `pyInt?` (sign and digits).  Conversion failure is `none`,
  mirroring the `try/except` blocks of the source.
- Python truthiness of strings (empty string is falsy) is modelled explicitly
  where the source relies on it (`if url:`, `a or b` on optional strings).
-/

/-- Value of a run of decimal digit characters. -/
def digitsToNat (cs : List Char) : Nat :=
  cs.foldl (fun a c => a * 10 + (c.toNat - 48)) 0

/-- Remove every occurrence of one character from a string
(Python `str.replace(c, "")`). -/
def stripChar (c : Char) (s : String) : String :=
  String.mk (s.toList.filter (fun x => x != c))

/-- `txt.replace(",", "")` from the source. -/
def stripCommas (s : String) : String := stripChar ',' s

/-- `txt.replace("$", "").replace(",", "")` from the source. -/
def stripDollarCommas (s : String) : String := stripChar ',' (stripChar '$' s)

/-- Python `str.strip()`: drop whitespace from both ends. -/
def trimChars (cs : List Char) : List Char :=
  ((cs.dropWhile Char.isWhitespace).reverse.dropWhile Char.isWhitespace).reverse

def pyStrip (s : String) : String := String.mk (trimChars s.toList)

/-- Python `int(s)`: optional sign, decimal digits, surrounding whitespace
stripped; anything else fails. -/
def pyIntDigits (cs : List Char) : Option Nat :=
  if cs.isEmpty then none
  else if cs.all Char.isDigit then some (digitsToNat cs) else none

def pyInt? (s : String) : Option Int :=
  match trimChars s.toList with
  | '+' :: rest => (pyIntDigits rest).map Int.ofNat
  | '-' :: rest => (pyIntDigits rest).map (fun n => -(n : Int))
  | cs => (pyIntDigits cs).map Int.ofNat

/-- Exponent tail of a float literal: `e`/`E` already consumed; parse
optional sign and digits, requiring the whole remainder to be consumed. -/
def expTail (base : ℚ) (cs : List Char) : Option ℚ :=
  let (sign, cs') : Int × List Char :=
    match cs with
    | '+' :: r => (1, r)
    | '-' :: r => (-1, r)
    | _ => (1, cs)
  let ds := cs'.takeWhile Char.isDigit
  let rest := cs'.dropWhile Char.isDigit
  if ds.isEmpty || !rest.isEmpty then none
  else some (base * (10 : ℚ) ^ (sign * (digitsToNat ds : Int)))

def expPart (base : ℚ) (cs : List Char) : Option ℚ :=
  match cs with
  | [] => some base
  | 'e' :: rest => expTail base rest
  | 'E' :: rest => expTail base rest
  | _ => none

/-- Unsigned part of Python `float(s)`: digits with optional fraction, or a
leading dot with digits, then an optional exponent. -/
def pyFloatMag (cs : List Char) : Option ℚ :=
  let intds := cs.takeWhile Char.isDigit
  let r1 := cs.dropWhile Char.isDigit
  match r1 with
  | '.' :: r2 =>
      let fracds := r2.takeWhile Char.isDigit
      let r3 := r2.dropWhile Char.isDigit
      if intds.isEmpty && fracds.isEmpty then none
      else
        expPart ((digitsToNat intds : ℚ) +
          (digitsToNat fracds : ℚ) / (10 : ℚ) ^ fracds.length) r3
  | _ =>
      if intds.isEmpty then none
      else expPart (digitsToNat intds : ℚ) r1

/-- Python `float(s)` over rationals: sign, magnitude, whitespace stripped.
Used to model every `float(txt)` conversion in `parse_tcgplayer`. -/
def pyFloat? (s : String) : Option ℚ :=
  match trimChars s.toList with
  | '+' :: rest => pyFloatMag rest
  | '-' :: rest => (pyFloatMag rest).map (fun q => -q)
  | cs => pyFloatMag cs

/-- Case-insensitive literal prefix check (pattern given in lowercase). -/
def ciPrefix : List Char → List Char → Bool
  | [], _ => true
  | _ :: _, [] => false
  | p :: ps, c :: rest => (c.toLower == p) && ciPrefix ps rest

/-- After the digit group of `(\d{1,6})\s+listings`: at least one whitespace
character, then the literal `listings` case-insensitively. -/
def wsThenListings (cs : List Char) : Bool :=
  !(cs.takeWhile Char.isWhitespace).isEmpty &&
    ciPrefix "listings".toList (cs.dropWhile Char.isWhitespace)

/-- Greedy attempt of the digit group at one start position: try `k` digits,
backtracking downwards, as Python's `\d{1,6}` does. -/
def tryDigitGroup (cs : List Char) : Nat → Option Nat
  | 0 => none
  | k + 1 =>
      if wsThenListings (cs.drop (k + 1)) then some (digitsToNat (cs.take (k + 1)))
      else tryDigitGroup cs k

def tryMatchListingsAt (cs : List Char) : Option Nat :=
  let run := cs.takeWhile Char.isDigit
  if run.isEmpty then none
  else tryDigitGroup cs (min run.length 6)

def findListingsAux : List Char → Option Nat
  | [] => none
  | c :: rest =>
      match tryMatchListingsAt (c :: rest) with
      | some n => some n
      | none => findListingsAux rest

/-- `re.search(r"(\d{1,6})\s+listings", s, re.I)` followed by `int(group(1))`:
leftmost match, greedy digit group. -/
def findListings (s : String) : Option Nat := findListingsAux s.toList

/-- `re.search(r"(\d+[.,]?\d*)", txt)` and its group 1: first maximal digit
run, optionally one `.`/`,` and a further digit run. -/
def findNumTokenAux : List Char → Option (List Char)
  | [] => none
  | c :: rest =>
      if c.isDigit then
        let ds := (c :: rest).takeWhile Char.isDigit
        let r1 := (c :: rest).dropWhile Char.isDigit
        match r1 with
        | p :: r2 =>
            if p == '.' || p == ',' then
              some (ds ++ p :: r2.takeWhile Char.isDigit)
            else some ds
        | [] => some ds
      else findNumTokenAux rest

def findNumToken (s : String) : Option String :=
  (findNumTokenAux s.toList).map String.mk

/-- Substring test, modelling Python's `needle in haystack` on strings. -/
def listInfix (n : List Char) : List Char → Bool
  | [] => n.isEmpty
  | c :: t => n.isPrefixOf (c :: t) || listInfix n t

def containsSub (needle hay : String) : Bool := listInfix needle.toList hay.toList

/-- Normalise an optional string by Python truthiness: `some ""` is falsy. -/
def pyTruthy (x : Option String) : Option String :=
  match x with
  | some s => if s = "" then none else some s
  | none => none

/-- Python `a or b` on two optional strings (as produced by `dict.get`). -/
def pyOrStr (a b : Option String) : Option String :=
  match a with
  | some s => if s = "" then pyTruthy b else some s
  | none => pyTruthy b

/-! ## Markup model: what `parse_tcgplayer` actually inspects -/

/-- One JSON-LD offer object: the `price` / `priceCurrency` entries as strings
(`str(price)` is applied before parsing in the source).  `none` means the key
is absent. -/
structure LdOffer where
  price : Option String
  priceCurrency : Option String
deriving DecidableEq

/-- One JSON-LD payload that parsed to a dict.  `offer` is the offer the loop
body considers (`offers[0]` for a non-empty list, the dict itself otherwise);
`none` covers an absent/falsy `offers` entry or a non-dict offer, in which
case the price branch does nothing. -/
structure LdPayload where
  offer : Option LdOffer
  description : Option String
  name : Option String
deriving DecidableEq

/-- One `tr` row under `.price-points__lower`: the text of its first
`span.text` label (if any) and the stripped texts of its
`span.price-points__lower__price` value elements, in document order. -/
structure GuideRow where
  label : Option String
  prices : List String
deriving DecidableEq

/-- The first element matching
`.price-points__upper__header__title, .price-points__upper__price`:
its text, and the text of its `find_next(class_="price-points__upper__price")`
element, if one exists. -/
structure UpperEl where
  text : String
  nextPrice : Option String
deriving DecidableEq

/-- A product page after BeautifulSoup parsing, restricted to the queries
`parse_tcgplayer` performs.  `ldPayloads` holds one entry per
`script type="application/ld+json"` tag; `none` marks a script whose content
failed both `json.loads` and the regex retry, or a falsy/non-dict payload
(the loop `continue`s on those). -/
structure Markup where
  setNameSpan : Option String
  ldPayloads : List (Option LdPayload)
  ogDescription : Option String
  upperFirst : Option UpperEl
  upperPrice : Option String
  lowerRows : List GuideRow
  priceCandidates : List String
  bodyText : String
deriving DecidableEq

/-- Result record of `parse_tcgplayer` (the dict it returns). -/
structure ExtractedFields where
  listing_count : Option Nat
  lowest_price : Option ℚ
  market_price : Option ℚ
  listed_median : Option ℚ
  current_quantity : Option Int
  current_sellers : Option Int
  set_name : Option String
deriving DecidableEq

/-! ## The extraction cascade (`parse_tcgplayer`, populate_db.py lines 107-288) -/

/-- `offer.get("price") or offer.get("priceCurrency")`. -/
def effPrice (o : LdOffer) : Option String := pyOrStr o.price o.priceCurrency

/-- Body of the JSON-LD loop (stage 1) for one parsed payload, updating the
`(lowest_price, listing_count)` state.  An offer with a truthy but
unparseable price overwrites `lowest_price` with `none`, exactly as the
source's `except` branch does. -/
def ldStep (st : Option ℚ × Option Nat) (pl : LdPayload) : Option ℚ × Option Nat :=
  let lp :=
    match pl.offer with
    | some o =>
        match effPrice o with
        | some p => pyFloat? (stripCommas p)
        | none => st.1
    | none => st.1
  let lc :=
    match pyOrStr pl.description pl.name with
    | some d =>
        if st.2 = none then
          match findListings d with
          | some n => some n
          | none => st.2
        else st.2
    | none => st.2
  (lp, lc)

/-- Stage 1: iterate the JSON-LD scripts, breaking once both `listing_count`
and `lowest_price` are set. -/
def ldLoop : List (Option LdPayload) → Option ℚ × Option Nat → Option ℚ × Option Nat
  | [], st => st
  | none :: rest, st => ldLoop rest st
  | some pl :: rest, st =>
      let st' := ldStep st pl
      if st'.1.isSome && st'.2.isSome then st' else ldLoop rest st'

/-- Stage 2: `og:description` meta-tag fallback for the listing count
(`if og and og.get("content")`). -/
def ogPass (lc : Option Nat) (og : Option String) : Option Nat :=
  if lc = none then
    match og with
    | some c =>
        if c = "" then lc
        else
          match findListings c with
          | some n => some n
          | none => lc
    | none => lc
  else lc

/-- Stage 3a: market price from the first upper-section element, then the
direct `.price-points__upper__price` fallback. -/
def marketPass (d : Markup) : Option ℚ :=
  let mp1 : Option ℚ :=
    match d.upperFirst with
    | some u =>
        if containsSub "Market Price" u.text then
          match u.nextPrice with
          | some t => pyFloat? (stripDollarCommas t)
          | none => none
        else none
    | none => none
  match mp1 with
  | some v => some v
  | none =>
      match d.upperPrice with
      | some t => pyFloat? (stripDollarCommas t)
      | none => none

/-- Stage 3b: one row of the `.price-points__lower tr` scan, updating
`(listed_median, current_quantity, current_sellers)`.  The three label tests
are independent `if`s, later rows overwrite earlier values, and a failed
conversion keeps the previous value (`except: pass`). -/
def rowStep (st : Option ℚ × Option Int × Option Int) (r : GuideRow) :
    Option ℚ × Option Int × Option Int :=
  match r.label with
  | none => st
  | some lab =>
      let lm :=
        if containsSub "Listed Median" lab then
          match r.prices.head? with
          | some t =>
              match pyFloat? (stripDollarCommas t) with
              | some v => some v
              | none => st.1
          | none => st.1
        else st.1
      let cq :=
        if containsSub "Current Quantity" lab then
          match r.prices.head? with
          | some t =>
              match pyInt? (stripCommas t) with
              | some v => some v
              | none => st.2.1
          | none => st.2.1
        else st.2.1
      let cs :=
        if containsSub "Current Sellers" lab then
          match r.prices with
          | [] => st.2.2
          | [t] =>
              match pyInt? (stripCommas t) with
              | some v => some v
              | none => st.2.2
          | _ :: t1 :: _ =>
              match pyInt? (stripCommas t1) with
              | some v => some v
              | none => st.2.2
        else st.2.2
      (lm, cq, cs)

def rowsPass (rows : List GuideRow) : Option ℚ × Option Int × Option Int :=
  rows.foldl rowStep (none, none, none)

/-- Stage 4: one visible price candidate; direct `float` conversion first,
then the `(\d+[.,]?\d*)` regex retry. -/
def candidatePrice (t : String) : Option ℚ :=
  let txt := stripDollarCommas t
  match pyFloat? txt with
  | some v => some v
  | none =>
      match findNumToken txt with
      | some tok => pyFloat? (stripCommas tok)
      | none => none

def candidatePrices (l : List String) : List ℚ := l.filterMap candidatePrice

/-- Python `min` over the accumulated prices list. -/
def listMin : List ℚ → Option ℚ
  | [] => none
  | h :: t => some (t.foldl min h)

/-- `parse_tcgplayer(html)`: the full cascade.  A total function — the Python
original wraps every stage in `try/except`, so no input raises. -/
def parse_tcgplayer (d : Markup) : ExtractedFields :=
  let set_name := d.setNameSpan
  let st1 := ldLoop d.ldPayloads (none, none)
  let lowest1 := st1.1
  let lc2 := ogPass st1.2 d.ogDescription
  let market_price := marketPass d
  let rp := rowsPass d.lowerRows
  let lowest2 :=
    if lowest1 = none then
      match listMin (candidatePrices d.priceCandidates) with
      | some v => some v
      | none => lowest1
    else lowest1
  let lc3 :=
    if lc2 = none then
      match findListings d.bodyText with
      | some n => some n
      | none => lc2
    else lc2
  ⟨lc3, lowest2, market_price, rp.1, rp.2.1, rp.2.2, set_name⟩

/-- A page with nothing the parser looks for. -/
def emptyMarkup : Markup := ⟨none, [], none, none, none, [], [], ""⟩

/-! ## Persistence layer (`ensure_product`, `insert_snapshot`) and schema -/

/-- One row of the `products` table. -/
structure ProductRow where
  id : Nat
  name : String
  url : String
deriving DecidableEq

/-- One row of the `listings` table as `insert_snapshot` writes it
(`timestamp` omitted: wall-clock time carries no information the claims
touch).  `median_price` receives the extractor's `listed_median`, per the
argument order of the INSERT in `insert_snapshot`. -/
structure SnapRow where
  product_id : Nat
  listing_count : Option Nat
  lowest_price : Option ℚ
  median_price : Option ℚ
  market_price : Option ℚ
  current_quantity : Option Int
  current_sellers : Option Int
  set_name : Option String
  source : String
deriving DecidableEq

/-- Database state: `products` in rowid order, the next AUTOINCREMENT id,
and the `listings` rows in insertion order. -/
structure DbState where
  products : List ProductRow
  nextId : Nat
  listings : List SnapRow
deriving DecidableEq

/-- `ensure_product(conn, name, url)` (populate_db.py lines 291-309):
look up by exact url when the url is truthy; on a miss — whether or not the
url was truthy — look up by exact name; insert a fresh row only when both
lookups miss.  `find?` models `SELECT ... fetchone()` scanning rowid order. -/
def ensure_product (db : DbState) (name url : String) : Nat × DbState :=
  match (if url = "" then none else db.products.find? (fun p => p.url == url)) with
  | some p => (p.id, db)
  | none =>
      match db.products.find? (fun p => p.name == name) with
      | some p => (p.id, db)
      | none =>
          (db.nextId,
            ⟨db.products ++ [⟨db.nextId, name, url⟩], db.nextId + 1, db.listings⟩)

/-- The listings row `insert_snapshot` builds from parsed fields
(source defaults to "TCGplayer", `listed_median` lands in `median_price`). -/
def mkSnapRow (pid : Nat) (f : ExtractedFields) : SnapRow :=
  ⟨pid, f.listing_count, f.lowest_price, f.listed_median, f.market_price,
    f.current_quantity, f.current_sellers, f.set_name, "TCGplayer"⟩

/-! ### SQL-level model of the snapshot INSERT

`create_db.py` declares `listings` with a FOREIGN KEY on `product_id`, but
`populate_db.py` opens its connection with a bare `sqlite3.connect` and never
issues `PRAGMA foreign_keys = ON`; SQLite therefore leaves foreign-key
enforcement off for that connection. -/

/-- Columns of the `listings` table as created by `create_db.py`
(lines 23-35). -/
def listingsColumns : List String :=
  ["id", "product_id", "timestamp", "listing_count", "lowest_price",
    "median_price", "condition", "source"]

/-- Columns named by the INSERT statement of `insert_snapshot`
(populate_db.py lines 315-320). -/
def insertSnapshotColumns : List String :=
  ["product_id", "timestamp", "listing_count", "lowest_price", "median_price",
    "market_price", "current_quantity", "current_sellers", "set_name", "source"]

/-- The `listings` schema the spec documents (§6) and `insert_snapshot`
expects: the INSERT's columns plus `id` and `condition`. -/
def expectedListingsColumns : List String :=
  ["id", "product_id", "timestamp", "listing_count", "lowest_price",
    "median_price", "market_price", "current_quantity", "current_sellers",
    "set_name", "condition", "source"]

/-- Whether foreign-key enforcement is on for populate_db.py's connection:
`sqlite3.connect(args.db)` with no pragma, so SQLite's default (off). -/
def populateFkEnabled : Bool := false

inductive SqlError where
  | noSuchColumn
  | fkViolation
deriving DecidableEq

/-- SQLite's handling of `insert_snapshot`'s INSERT: reject an INSERT naming
a column the table lacks; when foreign keys are enforced, reject a
`product_id` not present in `products`; otherwise append the row (tracked by
its `product_id`). -/
def sqliteInsertSnapshot (fkOn : Bool) (tableCols insertCols : List String)
    (productIds : List Nat) (pid : Nat) (rows : List Nat) :
    Except SqlError (List Nat) :=
  if !(insertCols.all (fun c => tableCols.contains c)) then
    .error .noSuchColumn
  else if fkOn && !(productIds.contains pid) then
    .error .fkViolation
  else .ok (rows ++ [pid])

/-! ## Orchestrator (`main`, populate_db.py lines 352-469) -/

/-- One CSV record, before stripping. -/
structure CsvRow where
  name : String
  url : String
deriving DecidableEq

/-- The external world for one item: the result of the plain HTTP fetch, the
results the two Selenium fetch sites would produce (`none` covers both a
falsy page and a raised exception — the source's `except` branches leave the
previous value in place), and whether the snapshot INSERT raises. -/
structure ItemEnv where
  fetchResult : Option Markup
  seleniumFetch1 : Option Markup
  seleniumFetch2 : Option Markup
  insertFails : Bool
deriving DecidableEq

/-- Orchestrator state threaded through the loop: the database, the
`count_processed` / `count_failed` counters, and the number of Selenium
fetches performed so far (for the retry-budget claims). -/
structure RunState where
  db : DbState
  processed : Nat
  failed : Nat
  selFetches : Nat
deriving DecidableEq

def initState : RunState := ⟨⟨[], 1, []⟩, 0, 0, 0⟩

/-- The re-parse trigger of populate_db.py lines 430-433: listing count,
market price and listed median all simultaneously absent. -/
def retryCond (f : ExtractedFields) : Bool :=
  f.listing_count.isNone && f.market_price.isNone && f.listed_median.isNone

/-- One iteration of the orchestrator loop body (populate_db.py lines
389-465), given the item's environment.  `seleniumOn` models
`args.selenium and driver`. -/
def processItem (seleniumOn : Bool) (st : RunState) (row : CsvRow)
    (env : ItemEnv) : RunState :=
  if pyStrip row.url = "" then st
  else
    let h0 := env.fetchResult
    let h1 := if h0.isNone && seleniumOn then env.seleniumFetch1 else h0
    let sf1 := if h0.isNone && seleniumOn then st.selFetches + 1 else st.selFetches
    match h1 with
    | none => ⟨st.db, st.processed, st.failed + 1, sf1⟩
    | some d =>
        let p0 := parse_tcgplayer d
        let retry := retryCond p0 && seleniumOn
        let parsed :=
          if retry then
            match env.seleniumFetch2 with
            | some d2 => parse_tcgplayer d2
            | none => p0
          else p0
        let sf2 := if retry then sf1 + 1 else sf1
        let pr := ensure_product st.db (pyStrip row.name) (pyStrip row.url)
        if env.insertFails then
          ⟨pr.2, st.processed, st.failed + 1, sf2⟩
        else
          ⟨⟨pr.2.products, pr.2.nextId, pr.2.listings ++ [mkSnapRow pr.1 parsed]⟩,
            st.processed + 1, st.failed, sf2⟩

/-- The whole batch loop, including the `--limit` break
(`if args.limit and count_processed >= args.limit: break`; limit 0 means no
limit). -/
def runBatch (seleniumOn : Bool) (limit : Nat) :
    RunState → List (CsvRow × ItemEnv) → RunState
  | st, [] => st
  | st, (r, e) :: rest =>
      if limit ≠ 0 ∧ limit ≤ st.processed then st
      else runBatch seleniumOn limit (processItem seleniumOn st r e) rest

/-! ## Helper lemmas -/

theorem find?_append_of_none {α : Type} (p : α → Bool) (l₁ l₂ : List α)
    (h : l₁.find? p = none) : (l₁ ++ l₂).find? p = l₂.find? p := by
  induction l₁ with
  | nil => rfl
  | cons a t ih =>
      rw [List.cons_append]
      cases hp : p a with
      | false =>
          simp only [List.find?, hp] at h ⊢
          exact ih h
      | true => exact absurd h (by simp only [List.find?, hp]; exact Option.some_ne_none a)

theorem ldLoop_all_none (l : List (Option LdPayload)) (st : Option ℚ × Option Nat)
    (h : ∀ p ∈ l, p = none) : ldLoop l st = st := by
  induction l with
  | nil => rfl
  | cons a t ih =>
      have ha : a = none := h a (List.mem_cons_self a t)
      subst ha
      exact ih (fun p hp => h p (List.mem_cons_of_mem _ hp))

theorem rowsFold_no_label (rows : List GuideRow)
    (st : Option ℚ × Option Int × Option Int)
    (h : ∀ r ∈ rows, r.label = none) : rows.foldl rowStep st = st := by
  induction rows generalizing st with
  | nil => rfl
  | cons r t ih =>
      have hr : r.label = none := h r (List.mem_cons_self r t)
      have : rowStep st r = st := by
        unfold rowStep
        rw [hr]
      rw [List.foldl_cons, this]
      exact ih st (fun q hq => h q (List.mem_cons_of_mem _ hq))

theorem ensure_product_listings (db : DbState) (n u : String) :
    (ensure_product db n u).2.listings = db.listings := by
  unfold ensure_product
  split
  · rfl
  · split
    · rfl
    · rfl

/-! ## Claims -/

/-- Claim C1: the claim states that `insert_snapshot` with a `product_id`
absent from `products` fails with a foreign-key StorageError and inserts no
row.  In the code, sqlite foreign-key enforcement is off
(`populateFkEnabled = false`, no `PRAGMA foreign_keys` is ever issued), so
against a `listings` table that has the INSERT's columns, inserting with
`product_id = 999` and an empty `products` table succeeds and appends a
dangling row; against the table exactly as `create_db.py` creates it, the
INSERT fails, but with a missing-column error, not a foreign-key
violation. -/
theorem c1_fk_not_enforced :
    sqliteInsertSnapshot populateFkEnabled expectedListingsColumns
        insertSnapshotColumns [] 999 [] = .ok [999]
    ∧ sqliteInsertSnapshot populateFkEnabled listingsColumns
        insertSnapshotColumns [] 999 [] = .error .noSuchColumn
    ∧ populateFkEnabled = false := ⟨rfl, rfl, rfl⟩

/-- Claim C2: the claim states that the `listings` table created by the
persistence layer contains `market_price`, `current_quantity`,
`current_sellers` and `set_name` and that `insert_snapshot`'s INSERT succeeds
against it.  The table `create_db.py` actually creates lacks all four
columns, so the INSERT (which names them) is rejected for every input
record. -/
theorem c2_schema_mismatch :
    "market_price" ∉ listingsColumns
    ∧ "current_quantity" ∉ listingsColumns
    ∧ "current_sellers" ∉ listingsColumns
    ∧ "set_name" ∉ listingsColumns
    ∧ ∀ (pids : List Nat) (pid : Nat) (rows : List Nat),
        sqliteInsertSnapshot populateFkEnabled listingsColumns
          insertSnapshotColumns pids pid rows = .error .noSuchColumn :=
  ⟨by decide, by decide, by decide, by decide, fun _ _ _ => rfl⟩

/-- Claim C10: a CSV row whose url is empty after stripping is skipped
entirely — the orchestrator state (database, processed and failed counters,
fetch counts) is returned unchanged, so no fetch, product resolution or
snapshot insertion happens and the row appears in neither report figure. -/
theorem c10_empty_url_skip (sel : Bool) (st : RunState) (row : CsvRow)
    (env : ItemEnv) (h : pyStrip row.url = "") :
    processItem sel st row env = st := by
  simp [processItem, h]

theorem c10_empty_url_skip_w :
    processItem false initState ⟨"Name", "   "⟩ ⟨some emptyMarkup, none, none, false⟩
      = initState :=
  c10_empty_url_skip false initState ⟨"Name", "   "⟩
    ⟨some emptyMarkup, none, none, false⟩ (by decide)

/-- Environment of an item that fetches fine and stores fine. -/
def okItemEnv : ItemEnv := ⟨some emptyMarkup, none, none, false⟩

/-- The five-item batch of Claim C8: item 3 fails its fetch, item 4 fails at
the snapshot INSERT, the rest succeed. -/
def c8Items : List (CsvRow × ItemEnv) :=
  [(⟨"P1", "u1"⟩, okItemEnv),
   (⟨"P2", "u2"⟩, okItemEnv),
   (⟨"P3", "u3"⟩, ⟨none, none, none, false⟩),
   (⟨"P4", "u4"⟩, ⟨some emptyMarkup, none, none, true⟩),
   (⟨"P5", "u5"⟩, okItemEnv)]

/-- Claim C8: the batch loop never aborts on a per-item failure.  Running the
five-item batch in which item 3 raises a FetchError and item 4 a
StorageError, items 1, 2 and 5 are still recorded (the listings rows
reference the products created for P1, P2 and P5), processing continues past
both failures, and the final report is 3 processed / 2 failed. -/
theorem c8_partial_failure_isolation :
    (runBatch false 0 initState c8Items).processed = 3
    ∧ (runBatch false 0 initState c8Items).failed = 2
    ∧ (runBatch false 0 initState c8Items).db.listings.map
        (fun s => s.product_id) = [1, 2, 4]
    ∧ (runBatch false 0 initState c8Items).db.products.map
        (fun p => (p.id, p.name)) = [(1, "P1"), (2, "P2"), (3, "P4"), (4, "P5")] :=
  ⟨by decide, by decide, by decide, by decide⟩

/-- Claim C9: in the row-scan for the "Current Quantity" label, a value text
of "1,234" parses to the integer 1234 (thousands separators stripped before
the integer conversion), and a non-numeric value text such as "abc" leaves
`current_quantity` absent instead of raising or aborting the cascade. -/
theorem c9_quantity_parsing :
    (∀ d : Markup, d.lowerRows = [⟨some "Current Quantity", ["1,234"]⟩] →
      (parse_tcgplayer d).current_quantity = some 1234)
    ∧ (∀ d : Markup, d.lowerRows = [⟨some "Current Quantity", ["abc"]⟩] →
      (parse_tcgplayer d).current_quantity = none) := by
  constructor
  · intro d h
    simp only [parse_tcgplayer]
    rw [h]
    decide
  · intro d h
    simp only [parse_tcgplayer]
    rw [h]
    decide

theorem c9_quantity_parsing_w :
    (parse_tcgplayer ⟨none, [], none, none, none,
        [⟨some "Current Quantity", ["1,234"]⟩], [], ""⟩).current_quantity = some 1234
    ∧ (parse_tcgplayer ⟨none, [], none, none, none,
        [⟨some "Current Quantity", ["abc"]⟩], [], ""⟩).current_quantity = none :=
  ⟨c9_quantity_parsing.1 _ rfl, c9_quantity_parsing.2 _ rfl⟩

/-- A database already holding the product ("X", "http://a/1"). -/
def c5Db : DbState := ⟨[⟨1, "X", "http://a/1"⟩], 2, []⟩

/-- Claim C5 counterexample: the claim asserts that two successive calls with
the same name and non-empty link insert exactly one Product row for every
starting state.  Starting from a state that already contains
("X", "http://a/1"), both calls return the existing identifier 1 and insert
zero rows: the product count stays 1, not the claimed 1 + 1. -/
theorem c5_counterexample :
    (ensure_product c5Db "X" "http://a/1").1 = 1
    ∧ (ensure_product (ensure_product c5Db "X" "http://a/1").2 "X" "http://a/1").1 = 1
    ∧ (ensure_product (ensure_product c5Db "X" "http://a/1").2 "X"
        "http://a/1").2.products.length = 1
    ∧ ¬ ((ensure_product (ensure_product c5Db "X" "http://a/1").2 "X"
        "http://a/1").2.products.length = c5Db.products.length + 1) := by
  decide

/-- Claim C5 (amended): calling `ensure_product` twice with the same name and
the same non-empty link returns the same identifier both times; the second
call changes nothing; at most one Product row is inserted in total, and
exactly one when the starting database matches neither the link nor the
name. -/
theorem c5_repeat_resolution (db : DbState) (n u : String) (hu : u ≠ "") :
    (ensure_product (ensure_product db n u).2 n u).1 = (ensure_product db n u).1
    ∧ (ensure_product (ensure_product db n u).2 n u).2 = (ensure_product db n u).2
    ∧ (ensure_product db n u).2.products.length ≤ db.products.length + 1
    ∧ (db.products.find? (fun p => p.url == u) = none →
        db.products.find? (fun p => p.name == n) = none →
        (ensure_product db n u).2.products.length = db.products.length + 1) := by
  cases hf : db.products.find? (fun p => p.url == u) with
  | some p =>
      have h1 : ensure_product db n u = (p.id, db) := by
        simp [ensure_product, hu, hf]
      exact ⟨by simp only [h1], by simp only [h1],
        by simp only [h1]; exact Nat.le_succ _,
        fun hc => absurd hc (by simp)⟩
  | none =>
      cases hn : db.products.find? (fun p => p.name == n) with
      | some q =>
          have h1 : ensure_product db n u = (q.id, db) := by
            simp [ensure_product, hu, hf, hn]
          exact ⟨by simp only [h1], by simp only [h1],
            by simp only [h1]; exact Nat.le_succ _,
            fun _ hc => absurd hc (by simp)⟩
      | none =>
          have h1 : ensure_product db n u =
              (db.nextId,
                ⟨db.products ++ [⟨db.nextId, n, u⟩], db.nextId + 1, db.listings⟩) := by
            simp [ensure_product, hu, hf, hn]
          have hfind : (db.products ++ [(⟨db.nextId, n, u⟩ : ProductRow)]).find?
              (fun p => p.url == u) = some ⟨db.nextId, n, u⟩ := by
            rw [find?_append_of_none _ _ _ hf]
            simp [List.find?]
          have h2 : ensure_product
              (⟨db.products ++ [⟨db.nextId, n, u⟩], db.nextId + 1, db.listings⟩ : DbState)
              n u =
              (db.nextId,
                ⟨db.products ++ [⟨db.nextId, n, u⟩], db.nextId + 1, db.listings⟩) := by
            simp [ensure_product, hu, hfind]
          exact ⟨by simp only [h1, h2], by simp only [h1, h2],
            by simp [h1], fun _ _ => by simp [h1]⟩

theorem c5_repeat_resolution_w :
    (ensure_product (ensure_product ⟨[], 1, []⟩ "X" "http://a/1").2 "X" "http://a/1").1
        = (ensure_product ⟨[], 1, []⟩ "X" "http://a/1").1
    ∧ (ensure_product (ensure_product ⟨[], 1, []⟩ "X" "http://a/1").2 "X" "http://a/1").2
        = (ensure_product ⟨[], 1, []⟩ "X" "http://a/1").2
    ∧ (ensure_product ⟨[], 1, []⟩ "X" "http://a/1").2.products.length
        ≤ (⟨[], 1, []⟩ : DbState).products.length + 1
    ∧ ((⟨[], 1, []⟩ : DbState).products.find? (fun p => p.url == "http://a/1") = none →
        (⟨[], 1, []⟩ : DbState).products.find? (fun p => p.name == "X") = none →
        (ensure_product ⟨[], 1, []⟩ "X" "http://a/1").2.products.length
          = (⟨[], 1, []⟩ : DbState).products.length + 1) :=
  c5_repeat_resolution ⟨[], 1, []⟩ "X" "http://a/1" (by decide)

/-- Claim C6 counterexample: the claim asserts that a call with a non-empty
link matching no existing Product's link creates a new Product row even when
an existing Product has the same name.  Starting from a database holding
product 1 = ("X", "http://a/1"), calling with name "X" and the unmatched
non-empty link "http://b/2" returns the existing identifier 1 and leaves the
database unchanged — the name fallback runs even though the link was
non-empty. -/
theorem c6_counterexample :
    ("http://b/2" ≠ "")
    ∧ (c5Db.products.find? (fun p => p.url == "http://b/2") = none)
    ∧ ensure_product c5Db "X" "http://b/2" = (1, c5Db)
    ∧ ¬ ((ensure_product c5Db "X" "http://b/2").2.products.length
          = c5Db.products.length + 1) := by
  decide

/-- Claim C6 (amended): `ensure_product` looks up by exact link when the link
is non-empty; when the link is empty or the link lookup misses, it falls back
to exact name lookup; it creates a new Product row only when both lookups
miss, returning the fresh identifier. -/
theorem c6_resolution_order :
    (∀ (db : DbState) (n u : String) (p : ProductRow), u ≠ "" →
        db.products.find? (fun q => q.url == u) = some p →
        ensure_product db n u = (p.id, db))
    ∧ (∀ (db : DbState) (n u : String) (p : ProductRow),
        (u = "" ∨ db.products.find? (fun q => q.url == u) = none) →
        db.products.find? (fun q => q.name == n) = some p →
        ensure_product db n u = (p.id, db))
    ∧ (∀ (db : DbState) (n u : String),
        (u = "" ∨ db.products.find? (fun q => q.url == u) = none) →
        db.products.find? (fun q => q.name == n) = none →
        ensure_product db n u =
          (db.nextId,
            ⟨db.products ++ [⟨db.nextId, n, u⟩], db.nextId + 1, db.listings⟩)) := by
  refine ⟨?_, ?_, ?_⟩
  · intro db n u p hu hf
    simp [ensure_product, hu, hf]
  · intro db n u p hor hn
    have hsc : (if u = "" then none
        else db.products.find? (fun q => q.url == u)) = none := by
      rcases hor with h | h
      · simp [h]
      · simp [h]
    unfold ensure_product
    rw [hsc, hn]
  · intro db n u hor hn
    have hsc : (if u = "" then none
        else db.products.find? (fun q => q.url == u)) = none := by
      rcases hor with h | h
      · simp [h]
      · simp [h]
    unfold ensure_product
    rw [hsc, hn]

theorem c6_resolution_order_w :
    ensure_product c5Db "Y" "http://a/1" = (1, c5Db)
    ∧ ensure_product c5Db "X" "" = (1, c5Db)
    ∧ ensure_product c5Db "Z" "http://c/3"
        = (2, ⟨c5Db.products ++ [⟨2, "Z", "http://c/3"⟩], 3, []⟩) :=
  ⟨c6_resolution_order.1 c5Db "Y" "http://a/1" ⟨1, "X", "http://a/1"⟩
      (by decide) (by decide),
   c6_resolution_order.2.1 c5Db "X" "" ⟨1, "X", "http://a/1"⟩
      (Or.inl rfl) (by decide),
   c6_resolution_order.2.2 c5Db "Z" "http://c/3" (Or.inr (by decide)) (by decide)⟩

/-- Claim C7: for every markup document (including empty and malformed ones —
scripts that fail to parse appear as `none` payloads, and the embedding of
`parse_tcgplayer` is a total function, mirroring the source's per-stage
`try/except` blocks), if the document contains none of the expected elements,
all seven extracted fields are absent. -/
theorem c7_null_safety (d : Markup)
    (h1 : d.setNameSpan = none)
    (h2 : ∀ p ∈ d.ldPayloads, p = none)
    (h3 : d.ogDescription = none)
    (h4 : d.upperFirst = none)
    (h5 : d.upperPrice = none)
    (h6 : ∀ r ∈ d.lowerRows, r.label = none)
    (h7 : d.priceCandidates = [])
    (h8 : findListings d.bodyText = none) :
    parse_tcgplayer d = ⟨none, none, none, none, none, none, none⟩ := by
  have hld := ldLoop_all_none d.ldPayloads (none, none) h2
  have hrows := rowsFold_no_label d.lowerRows (none, none, none) h6
  simp [parse_tcgplayer, h1, h3, h4, h5, h7, h8, hld, hrows, ogPass, marketPass,
    rowsPass, candidatePrices, listMin]

theorem c7_null_safety_w :
    parse_tcgplayer emptyMarkup = ⟨none, none, none, none, none, none, none⟩ :=
  c7_null_safety emptyMarkup rfl (by decide) rfl rfl rfl (by decide) rfl rfl

/-- A page whose JSON-LD block holds first a parseable offer price and then a
truthy but unparseable one, with no visible price elements. -/
def c3Cex : Markup :=
  ⟨none,
    [some ⟨some ⟨some "5", none⟩, none, none⟩,
      some ⟨some ⟨some "x", none⟩, none, none⟩],
    none, none, none, [], [], ""⟩

/-- Claim C3 counterexample: the claim asserts that every document containing
a numeric-parseable structured-metadata offer price and no visible price
elements yields that metadata value as `lowest_price`.  `c3Cex` contains the
parseable metadata offer price "5" (in its first JSON-LD script) and no
visible price elements, yet `parse_tcgplayer` returns `none`: the loop over
metadata scripts lets a later script's unparseable offer price overwrite the
already extracted value with `None`. -/
theorem c3_counterexample :
    pyFloat? (stripCommas "5") = some 5
    ∧ c3Cex.ldPayloads.head? = some (some ⟨some ⟨some "5", none⟩, none, none⟩)
    ∧ c3Cex.priceCandidates = []
    ∧ (parse_tcgplayer c3Cex).lowest_price ≠ some 5
    ∧ (parse_tcgplayer c3Cex).lowest_price = none := by
  decide

/-- Claim C3 (amended): (a) for every document whose structured-metadata
block consists of a single offer-bearing script whose offer price is
numeric-parseable, and which has no visible price elements, `lowest_price`
is that metadata value; (b) for every document whose metadata pass yields no
price, `lowest_price` is the minimum of the values parsed from the visible
price candidates (when any parse); (c) once the metadata pass yields a
price, the visible-element fallback is not attempted: its result is returned
regardless of the candidates. -/
theorem c3_lowest_price_fallback :
    (∀ (d : Markup) (pl : LdPayload) (o : LdOffer) (p : String) (v : ℚ),
        d.ldPayloads = [some pl] → pl.offer = some o → effPrice o = some p →
        pyFloat? (stripCommas p) = some v → d.priceCandidates = [] →
        (parse_tcgplayer d).lowest_price = some v)
    ∧ (∀ d : Markup, (ldLoop d.ldPayloads (none, none)).1 = none →
        candidatePrices d.priceCandidates ≠ [] →
        (parse_tcgplayer d).lowest_price = listMin (candidatePrices d.priceCandidates))
    ∧ (∀ (d : Markup) (v : ℚ), (ldLoop d.ldPayloads (none, none)).1 = some v →
        (parse_tcgplayer d).lowest_price = some v) := by
  refine ⟨?_, ?_, ?_⟩
  · intro d pl o p v hld hoff hp hv hcand
    have h1 : (ldLoop d.ldPayloads (none, none)).1 = some v := by
      rw [hld]
      simp [ldLoop, ldStep, hoff, hp, hv]
    simp [parse_tcgplayer, h1]
  · intro d h hne
    obtain ⟨a, t, hct⟩ : ∃ a t, candidatePrices d.priceCandidates = a :: t := by
      cases hc : candidatePrices d.priceCandidates with
      | nil => exact absurd hc hne
      | cons a t => exact ⟨a, t, rfl⟩
    simp [parse_tcgplayer, h, hct, listMin]
  · intro d v h
    simp [parse_tcgplayer, h]

/-- A single parseable metadata offer, no visible prices. -/
def c3DocA : Markup :=
  ⟨none, [some ⟨some ⟨some "5", none⟩, none, none⟩], none, none, none, [], [], ""⟩

/-- No metadata, two visible price candidates. -/
def c3DocB : Markup := ⟨none, [], none, none, none, [], ["$4", "2"], ""⟩

/-- A parseable metadata offer and a visible candidate that must be ignored. -/
def c3DocC : Markup :=
  ⟨none, [some ⟨some ⟨some "7", none⟩, none, none⟩], none, none, none, [], ["$4"], ""⟩

theorem c3_lowest_price_fallback_w :
    (parse_tcgplayer c3DocA).lowest_price = some 5
    ∧ (parse_tcgplayer c3DocB).lowest_price
        = listMin (candidatePrices c3DocB.priceCandidates)
    ∧ (parse_tcgplayer c3DocC).lowest_price = some 7 :=
  ⟨c3_lowest_price_fallback.1 c3DocA ⟨some ⟨some "5", none⟩, none, none⟩
      ⟨some "5", none⟩ "5" 5 rfl rfl (by decide) (by decide) rfl,
   c3_lowest_price_fallback.2.1 c3DocB (by decide) (by decide),
   c3_lowest_price_fallback.2.2 c3DocC 7 (by decide)⟩

/-- Claim C4: when the first fetch succeeds but the extraction cascade leaves
listing count, market price and listed median all simultaneously absent, and
the browser-rendering strategy is available (`seleniumOn = true`), the
orchestrator performs exactly one extra Selenium fetch for the item and, when
that fetch yields markup, records the snapshot built from re-running the
extractor on the new markup; when any of the three fields is present, no
Selenium fetch happens at all for the item. -/
theorem c4_selenium_retry :
    (∀ (st : RunState) (row : CsvRow) (env : ItemEnv) (d : Markup),
        pyStrip row.url ≠ "" → env.fetchResult = some d →
        retryCond (parse_tcgplayer d) = true →
        (processItem true st row env).selFetches = st.selFetches + 1)
    ∧ (∀ (st : RunState) (row : CsvRow) (env : ItemEnv) (d d2 : Markup),
        pyStrip row.url ≠ "" → env.fetchResult = some d →
        retryCond (parse_tcgplayer d) = true →
        env.seleniumFetch2 = some d2 → env.insertFails = false →
        (processItem true st row env).db.listings
          = st.db.listings ++ [mkSnapRow
              (ensure_product st.db (pyStrip row.name) (pyStrip row.url)).1
              (parse_tcgplayer d2)])
    ∧ (∀ (st : RunState) (row : CsvRow) (env : ItemEnv) (d : Markup),
        pyStrip row.url ≠ "" → env.fetchResult = some d →
        retryCond (parse_tcgplayer d) = false →
        (processItem true st row env).selFetches = st.selFetches) := by
  refine ⟨?_, ?_, ?_⟩
  · intro st row env d hu hf hr
    cases hins : env.insertFails <;> cases hsel : env.seleniumFetch2 <;>
      simp [processItem, hu, hf, hr, hins, hsel]
  · intro st row env d d2 hu hf hr hsel hins
    simp [processItem, hu, hf, hr, hsel, hins, ensure_product_listings]
  · intro st row env d hu hf hr
    cases hins : env.insertFails <;> cases hsel : env.seleniumFetch2 <;>
      simp [processItem, hu, hf, hr, hins, hsel]

/-- All three trigger fields absent after the first parse. -/
def c4EnvA : ItemEnv := ⟨some emptyMarkup, none, some c3DocC, false⟩

/-- Listing count present after the first parse. -/
def c4DocL : Markup := ⟨none, [], none, none, none, [], [], "3 listings"⟩

def c4EnvB : ItemEnv := ⟨some c4DocL, none, some c3DocC, false⟩

theorem c4_selenium_retry_w :
    (processItem true initState ⟨"P", "u"⟩ c4EnvA).selFetches
        = initState.selFetches + 1
    ∧ (processItem true initState ⟨"P", "u"⟩ c4EnvA).db.listings
        = initState.db.listings ++ [mkSnapRow
            (ensure_product initState.db (pyStrip "P") (pyStrip "u")).1
            (parse_tcgplayer c3DocC)]
    ∧ (processItem true initState ⟨"P", "u"⟩ c4EnvB).selFetches
        = initState.selFetches :=
  ⟨c4_selenium_retry.1 initState ⟨"P", "u"⟩ c4EnvA emptyMarkup
      (by decide) rfl (by decide),
   c4_selenium_retry.2.1 initState ⟨"P", "u"⟩ c4EnvA emptyMarkup c3DocC
      (by decide) rfl (by decide) rfl rfl,
   c4_selenium_retry.2.2 initState ⟨"P", "u"⟩ c4EnvB c4DocL
      (by decide) rfl (by decide)⟩
